import Mathlib

/-!
Verification of the translation request pipeline of the tw-thai-translator
repository: the client-side quota governor (`src/quota.js`), the Gemini
backend client (`src/gemini.js`), and the round orchestration
(`src/app.js`), embedded shallowly in Lean.

Conventions of the embedding:
* JavaScript numbers holding millisecond timestamps and counters are
  modelled as `Int` (all arithmetic in the source is integer arithmetic).
* `Date.now()` and the local-midnight `startOfDay()` are passed explicitly
  as arguments `tNow` and `tDay` to every operation that reads them; a
  round uses one instant throughout (none of the verified properties
  depends on time passing inside a round).
* `localStorage` is passed explicitly: the persisted quota blob is an
  `Option UsageData` (`none` models an absent or unparsable blob), and an
  operation that writes returns the new blob.
* JavaScript exceptions become `Except`; the network is an oracle
  `Nat → FetchResponse` giving the response of each `fetch` attempt.
-/

namespace TwThai

/-! ## Quota governor (`src/quota.js`) -/

/-- The persisted quota blob stored under the `gemini_usage` key. -/
structure UsageData where
  minuteTimestamps : List Int
  dayStart : Int
  dayCount : Int
deriving Repr, DecidableEq

/-- Source constant `MAX_RPM = 15`. -/
def MAX_RPM : Int := 15

/-- Source constant `MAX_RPD = 1500`. -/
def MAX_RPD : Int := 1500

/-- Source `cleanData(data)`: drop minute entries older than one minute and
reset the daily count when the stored `dayStart` differs from today's
local-midnight timestamp `tDay`. -/
def cleanData (tNow tDay : Int) (data : UsageData) : UsageData :=
  let oneMinuteAgo := tNow - 60000
  let minuteTimestamps := data.minuteTimestamps.filter (fun t => decide (oneMinuteAgo < t))
  if data.dayStart ≠ tDay then
    { minuteTimestamps := minuteTimestamps, dayStart := tDay, dayCount := 0 }
  else
    { data with minuteTimestamps := minuteTimestamps }

/-- Source `getCleanUsage()`: load the blob, initialise it when absent,
and clean it. -/
def getCleanUsage (stored : Option UsageData) (tNow tDay : Int) : UsageData :=
  cleanData tNow tDay (stored.getD { minuteTimestamps := [], dayStart := tDay, dayCount := 0 })

/-- Source `recordRequest()`: push the current timestamp onto the minute
window, bump the day counter, and save.  The returned value is the blob
written back to storage. -/
def recordRequest (stored : Option UsageData) (tNow tDay : Int) : UsageData :=
  let data := getCleanUsage stored tNow tDay
  { data with minuteTimestamps := data.minuteTimestamps ++ [tNow],
              dayCount := data.dayCount + 1 }

/-- Math.ceil(a / b) for integers with b > 0. -/
def ceilDiv (a b : Int) : Int := Int.ediv (a + b - 1) b

/-- Math.min over a spread list.  The empty case yields Infinity in
JavaScript; the only call site guards on a nonempty list, so the value
returned for `[]` here is irrelevant. -/
def mathMin (l : List Int) : Int :=
  match l with
  | [] => 0
  | x :: xs => xs.foldl min x

/-- The `rpm` component of the quota snapshot. -/
structure RpmInfo where
  used : Int
  maxQ : Int
  remaining : Int
  resetInSec : Int
deriving Repr, DecidableEq

/-- The `rpd` component of the quota snapshot. -/
structure RpdInfo where
  used : Int
  maxQ : Int
  remaining : Int
deriving Repr, DecidableEq

/-- The quota snapshot returned by `getQuota()`. -/
structure Quota where
  rpm : RpmInfo
  rpd : RpdInfo
deriving Repr, DecidableEq

/-- Source `getQuota()`: load and clean the blob in memory and report the
snapshot.  Note that the source performs no `saveUsageData` call here. -/
def getQuota (stored : Option UsageData) (tNow tDay : Int) : Quota :=
  let data := getCleanUsage stored tNow tDay
  let rpmUsed : Int := data.minuteTimestamps.length
  let rpmRemaining : Int := max 0 (MAX_RPM - rpmUsed)
  let resetInSec : Int :=
    if 0 < rpmUsed ∧ rpmRemaining = 0 then
      let oldest := mathMin data.minuteTimestamps
      max 0 (ceilDiv (oldest + 60000 - tNow) 1000)
    else 0
  let rpdUsed : Int := data.dayCount
  let rpdRemaining : Int := max 0 (MAX_RPD - rpdUsed)
  { rpm := { used := rpmUsed, maxQ := MAX_RPM, remaining := rpmRemaining,
             resetInSec := resetInSec },
    rpd := { used := rpdUsed, maxQ := MAX_RPD, remaining := rpdRemaining } }

/-- The `{ allowed, reason? }` object returned by `canRequest()`. -/
structure CheckResult where
  allowed : Bool
  reason : Option String
deriving Repr, DecidableEq

/-- The daily-cap denial reason string of the source. -/
def dayExhaustedReason : String := "今日 API 額度已用完（1,500次/天），明天重置"

/-- The per-minute denial reason string of the source, parametrised by the
interpolated `resetInSec`. -/
def minuteExhaustedReason (resetInSec : Int) : String :=
  s!"每分鐘額度已滿，{resetInSec} 秒後可用"

/-- Source `canRequest()`: the pre-flight admission check. -/
def canRequest (stored : Option UsageData) (tNow tDay : Int) : CheckResult :=
  let q := getQuota stored tNow tDay
  if q.rpd.remaining ≤ 0 then
    { allowed := false, reason := some dayExhaustedReason }
  else if q.rpm.remaining ≤ 0 then
    { allowed := false, reason := some (minuteExhaustedReason q.rpm.resetInSec) }
  else
    { allowed := true, reason := none }

/-- Storage effect of `getQuota()`: the source reads the blob and never
writes it back, so the stored blob after the call is the one before it. -/
def getQuotaOp (stored : Option UsageData) (tNow tDay : Int) : Quota × Option UsageData :=
  (getQuota stored tNow tDay, stored)

/-- Storage effect of `recordRequest()`: the new blob is saved. -/
def recordRequestOp (stored : Option UsageData) (tNow tDay : Int) : Option UsageData :=
  some (recordRequest stored tNow tDay)

/-! ## Sequences of recorded requests -/

/-- One `recordRequest()` invocation: the `Date.now()` and `startOfDay()`
values observed by that call. -/
structure RecordCall where
  t : Int
  dayStart : Int
deriving Repr, DecidableEq

/-- Run a sequence of `recordRequest()` calls against the persisted blob,
threading the storage writes. -/
def applyRecords (calls : List RecordCall) (stored : Option UsageData) : Option UsageData :=
  match calls with
  | [] => stored
  | c :: cs => applyRecords cs (recordRequestOp stored c.t c.dayStart)

/-- Minute-window content of a persisted blob (empty when absent). -/
def mtsOf (stored : Option UsageData) : List Int :=
  match stored with
  | none => []
  | some d => d.minuteTimestamps

/-! ## Backend client (`src/gemini.js`) -/

/-- JavaScript `a || b` on strings: empty (falsy) or absent falls back. -/
def jsOr (a : Option String) (b : String) : String :=
  match a with
  | some s => if s = "" then b else s
  | none => b

/-- Source `getApiKey()`: the localStorage override falls back to the
build-time key, with empty strings falsy. -/
def getApiKey (keyLocal : Option String) (builtInKey : String) : String :=
  jsOr keyLocal builtInKey

/-- One option of a clarify-shaped response, fields as in the JSON wire
format. -/
structure ClarifyOption where
  source : String
  target : String
  value : String
deriving Repr, DecidableEq

/-- A parsed JSON value as the duck-typed code reads it: every field the
pipeline ever accesses, each possibly absent.  `JSON.parse` performs no
shape validation in the source, so any combination can occur. -/
structure GeminiValue where
  type : Option String := none
  original : Option String := none
  translated : Option String := none
  note : Option String := none
  question_source : Option String := none
  question_target : Option String := none
  options : Option (List ClarifyOption) := none
deriving Repr, DecidableEq

/-- One `fetch` response as the client observes it: the HTTP status, the
raw body text, the `error.message` field when the body parses as an error
envelope, the extracted `candidates[0].content.parts[0].text` (absent
models any failed optional-chain), and the result of `JSON.parse` on that
text (`none` models a parse failure). -/
structure FetchResponse where
  status : Nat
  bodyText : String := ""
  errorMessage : Option String := none
  content : Option String := none
  contentValue : Option GeminiValue := none
deriving Repr, DecidableEq

/-- Result of a `fetchWithRetry` run: the response finally returned, the
backoff delays awaited (ms, in order) and the attempt indices on which
`fetch` was invoked. -/
structure FetchRun where
  response : FetchResponse
  delays : List Nat
  attemptsMade : List Nat
deriving Repr, DecidableEq

/-- Loop body of `fetchWithRetry`.  The JS `for` loop index is `attempt`;
`fuel = maxRetries - attempt` counts the remaining iterations, so
`fuel = 0` is exactly the case `attempt < maxRetries` false, where a 429
is returned rather than retried.  A retry waits `2 ^ attempt * 2000` ms
(2 s, 4 s, 8 s). -/
def fetchWithRetryGo (f : Nat → FetchResponse) (attempt : Nat) : Nat → FetchRun
  | 0 => { response := f attempt, delays := [], attemptsMade := [attempt] }
  | fuel + 1 =>
    let response := f attempt
    if response.status = 429 then
      let waitMs := 2 ^ attempt * 2000
      let rest := fetchWithRetryGo f (attempt + 1) fuel
      { response := rest.response, delays := waitMs :: rest.delays,
        attemptsMade := attempt :: rest.attemptsMade }
    else
      { response := response, delays := [], attemptsMade := [attempt] }

/-- Source `fetchWithRetry(url, options, maxRetries)`: retry on 429 with
exponential backoff; both callers use the default `maxRetries = 3`. -/
def fetchWithRetry (f : Nat → FetchResponse) (maxRetries : Nat) : FetchRun :=
  fetchWithRetryGo f 0 maxRetries

/-- The errors thrown by the backend client, one constructor per `throw`
site of the source. -/
inductive GeminiError where
  | missingKey
  | rateLimited (detail : String)
  | apiError (status : Nat) (detail : String)
  | noContent
  | badFormat
  | translateFailed (detail : String)
deriving Repr, DecidableEq

/-- The exact message string each throw site produces. -/
def GeminiError.message : GeminiError → String
  | .missingKey => "請先設定 Gemini API Key"
  | .rateLimited d => s!"API 限流: {d}"
  | .apiError s d => s!"Gemini API 錯誤 ({s}): {d}"
  | .noContent => "Gemini 沒有回傳有效內容"
  | .badFormat => "Gemini 回傳格式錯誤"
  | .translateFailed d => s!"翻譯失敗: {d}"

/-- `response.ok`: HTTP status in the 200-299 range. -/
def respOk (r : FetchResponse) : Bool :=
  decide (200 ≤ r.status) && decide (r.status ≤ 299)

/-- Error detail extraction of both error branches:
`errJson.error?.message || errBody`, falling back to the raw body when the
body is not JSON. -/
def errorDetail (r : FetchResponse) : String :=
  jsOr r.errorMessage r.bodyText

instance {ε α : Type} [DecidableEq ε] [DecidableEq α] : DecidableEq (Except ε α) := fun a b =>
  match a, b with
  | .error e, .error e' => decidable_of_iff (e = e') (by simp)
  | .error _, .ok _ => isFalse (by simp)
  | .ok _, .error _ => isFalse (by simp)
  | .ok x, .ok y => decidable_of_iff (x = y) (by simp)

/-- Outcome of one backend-client call: the value returned or error
thrown, together with the number of network requests actually issued. -/
structure CallResult where
  result : Except GeminiError GeminiValue
  networkCalls : Nat
deriving Repr, DecidableEq

/-- Source `analyzeAndTranslate(text, fromLang, toLang)`.  The prompt text
does not influence control flow, so it is not modelled; `f` is the
network oracle for this call's attempts. -/
def analyzeAndTranslate (keyLocal : Option String) (builtInKey : String)
    (f : Nat → FetchResponse) : CallResult :=
  let apiKey := getApiKey keyLocal builtInKey
  if apiKey = "" then
    { result := .error .missingKey, networkCalls := 0 }
  else
    let run := fetchWithRetry f 3
    let response := run.response
    let calls := run.attemptsMade.length
    if respOk response = false then
      let detail := errorDetail response
      if response.status = 429 then
        { result := .error (.rateLimited detail), networkCalls := calls }
      else
        { result := .error (.apiError response.status detail), networkCalls := calls }
    else
      match response.content with
      | none => { result := .error .noContent, networkCalls := calls }
      | some c =>
        if c = "" then
          { result := .error .noContent, networkCalls := calls }
        else
          match response.contentValue with
          | some v => { result := .ok v, networkCalls := calls }
          | none => { result := .error .badFormat, networkCalls := calls }

/-- Source `translateClarified(clarifiedText, fromLang, toLang)`: any
non-2xx response throws; a 2xx response whose content does not parse as
JSON falls back to a translate-shaped value carrying the raw content text
(or the original clarified text when the content is absent or empty). -/
def translateClarified (keyLocal : Option String) (builtInKey : String)
    (clarifiedText : String) (f : Nat → FetchResponse) : CallResult :=
  let apiKey := getApiKey keyLocal builtInKey
  if apiKey = "" then
    { result := .error .missingKey, networkCalls := 0 }
  else
    let run := fetchWithRetry f 3
    let response := run.response
    let calls := run.attemptsMade.length
    if respOk response = false then
      { result := .error (.translateFailed (errorDetail response)), networkCalls := calls }
    else
      match response.contentValue with
      | some v => { result := .ok v, networkCalls := calls }
      | none =>
        { result := .ok { type := some "translate", original := some clarifiedText,
                          translated := some (jsOr response.content clarifiedText) },
          networkCalls := calls }

/-! ## Round orchestration (`src/app.js`) and the clarify bubble (`src/ui.js`) -/

/-- Source `addClarifyBubble(data)`: one button per option; the returned
promise resolves with the `data-value` (the option's `value` field) of
the first clicked button, after which every button is disabled, so later
clicks are ignored.  `clicks` is the sequence of button indices the user
presses; an index outside the option list has no button and is skipped.
`none` means the promise never resolves (no selection is ever made). -/
def addClarifyBubbleModel (data : GeminiValue) (clicks : List Nat) : Option String :=
  let opts := data.options.getD []
  (clicks.filterMap (fun i => (opts[i]?).map (fun o => o.value))).head?

/-- The external inputs of one orchestrated round. -/
structure RoundEnv where
  keyLocal : Option String
  builtInKey : String
  storedQuota : Option UsageData
  fetchFirst : Nat → FetchResponse
  fetchClarified : Nat → FetchResponse
  clicks : List Nat

/-- What a round ends with, as observable at the round boundary. -/
inductive RoundOutcome where
  | denied (reason : Option String)
  | captureFailed (msg : String)
  | noSpeech
  | failed (e : GeminiError)
  | suspended
  | done (result : GeminiValue)
deriving Repr, DecidableEq

/-- Observable trace of one round: terminal outcome, the persisted quota
blob after the round, how many times `recordRequest()` ran, how many
`fetch` calls reached the network, how many clarification prompts were
shown, and the text passed to `translateClarified` when it was called. -/
structure RoundTrace where
  outcome : RoundOutcome
  storedAfter : Option UsageData
  recordCalls : Nat
  networkCalls : Nat
  clarifyPrompts : Nat
  clarifiedCallInput : Option String
deriving Repr, DecidableEq

/-- The shared tail of `beginRecording` (lines 266-287) and
`translateText` (lines 320-334) of `src/app.js`: call
`analyzeAndTranslate`, on success `recordRequest()`, then either deliver
the translation or run the clarification sub-round (clarify bubble,
`translateClarified`, `recordRequest()` again on its success).  A thrown
error is caught at the round boundary (`catch` block) with no further
quota recording. -/
def translationFlow (env : RoundEnv) (tNow tDay : Int) : RoundTrace :=
  let first := analyzeAndTranslate env.keyLocal env.builtInKey env.fetchFirst
  match first.result with
  | .error e =>
    { outcome := .failed e, storedAfter := env.storedQuota, recordCalls := 0,
      networkCalls := first.networkCalls, clarifyPrompts := 0, clarifiedCallInput := none }
  | .ok result =>
    let stored1 := recordRequestOp env.storedQuota tNow tDay
    if result.type = some "clarify" then
      match addClarifyBubbleModel result env.clicks with
      | none =>
        { outcome := .suspended, storedAfter := stored1, recordCalls := 1,
          networkCalls := first.networkCalls, clarifyPrompts := 1, clarifiedCallInput := none }
      | some selectedValue =>
        let second := translateClarified env.keyLocal env.builtInKey selectedValue
          env.fetchClarified
        match second.result with
        | .error e =>
          { outcome := .failed e, storedAfter := stored1, recordCalls := 1,
            networkCalls := first.networkCalls + second.networkCalls, clarifyPrompts := 1,
            clarifiedCallInput := some selectedValue }
        | .ok translation =>
          { outcome := .done translation,
            storedAfter := recordRequestOp stored1 tNow tDay, recordCalls := 2,
            networkCalls := first.networkCalls + second.networkCalls, clarifyPrompts := 1,
            clarifiedCallInput := some selectedValue }
    else
      { outcome := .done result, storedAfter := stored1, recordCalls := 1,
        networkCalls := first.networkCalls, clarifyPrompts := 0, clarifiedCallInput := none }

/-- Source `beginRecording()` (voice round): pre-flight `canRequest`, then
speech capture (`speech` is the settled listen promise: `.error` a
capture rejection, `.ok` the transcript), empty-transcript abort, then
the shared translation flow. -/
def beginRecordingModel (env : RoundEnv) (tNow tDay : Int)
    (speech : Except String String) : RoundTrace :=
  let check := canRequest env.storedQuota tNow tDay
  if check.allowed = false then
    { outcome := .denied check.reason, storedAfter := env.storedQuota, recordCalls := 0,
      networkCalls := 0, clarifyPrompts := 0, clarifiedCallInput := none }
  else
    match speech with
    | .error msg =>
      { outcome := .captureFailed msg, storedAfter := env.storedQuota, recordCalls := 0,
        networkCalls := 0, clarifyPrompts := 0, clarifiedCallInput := none }
    | .ok text =>
      if text = "" then
        { outcome := .noSpeech, storedAfter := env.storedQuota, recordCalls := 0,
          networkCalls := 0, clarifyPrompts := 0, clarifiedCallInput := none }
      else
        translationFlow env tNow tDay

/-- Source `translateText(text)` (typed round): pre-flight `canRequest`,
then the shared translation flow.  The function itself performs no
emptiness check (its callers do). -/
def translateTextModel (env : RoundEnv) (tNow tDay : Int) (_text : String) : RoundTrace :=
  let check := canRequest env.storedQuota tNow tDay
  if check.allowed = false then
    { outcome := .denied check.reason, storedAfter := env.storedQuota, recordCalls := 0,
      networkCalls := 0, clarifyPrompts := 0, clarifiedCallInput := none }
  else
    translationFlow env tNow tDay

/-- A concrete clarify-shaped backend value used in counterexamples and
witnesses: two options A and B. -/
def clarifyTwoOptions : GeminiValue :=
  { type := some "clarify", question_source := some "which one",
    question_target := some "which one",
    options := some [{ source := "A", target := "A", value := "A" },
                     { source := "B", target := "B", value := "B" }] }

/-- A concrete translate-shaped backend value used in counterexamples and
witnesses. -/
def translateB : GeminiValue :=
  { type := some "translate", original := some "B", translated := some "B-th" }

/-! ## Basic lemmas about the quota governor -/

lemma getQuota_rpd_remaining (stored : Option UsageData) (tNow tDay : Int) :
    (getQuota stored tNow tDay).rpd.remaining
      = max 0 (MAX_RPD - (getCleanUsage stored tNow tDay).dayCount) := rfl

lemma getQuota_rpm_remaining (stored : Option UsageData) (tNow tDay : Int) :
    (getQuota stored tNow tDay).rpm.remaining
      = max 0 (MAX_RPM - ((getCleanUsage stored tNow tDay).minuteTimestamps.length : Int)) := rfl

lemma getQuota_rpm_used (stored : Option UsageData) (tNow tDay : Int) :
    (getQuota stored tNow tDay).rpm.used
      = ((getCleanUsage stored tNow tDay).minuteTimestamps.length : Int) := rfl

lemma getQuota_rpd_used (stored : Option UsageData) (tNow tDay : Int) :
    (getQuota stored tNow tDay).rpd.used
      = (getCleanUsage stored tNow tDay).dayCount := rfl

lemma mts_getCleanUsage (stored : Option UsageData) (tNow tDay : Int) :
    (getCleanUsage stored tNow tDay).minuteTimestamps
      = (mtsOf stored).filter (fun x => decide (tNow - 60000 < x)) := by
  cases stored <;> simp only [getCleanUsage, cleanData, Option.getD, mtsOf] <;>
    split <;> simp

lemma mts_recordRequest (stored : Option UsageData) (tNow tDay : Int) :
    (recordRequest stored tNow tDay).minuteTimestamps
      = (mtsOf stored).filter (fun x => decide (tNow - 60000 < x)) ++ [tNow] := by
  simp [recordRequest, mts_getCleanUsage]

lemma filter_window_absorb (l : List Int) (a b : Int) (hab : a ≤ b) :
    ((l.filter (fun x => decide (a - 60000 < x))).filter (fun x => decide (b - 60000 < x)))
      = l.filter (fun x => decide (b - 60000 < x)) := by
  induction l with
  | nil => rfl
  | cons x xs ih =>
    by_cases h1 : a - 60000 < x <;> by_cases h2 : b - 60000 < x <;>
      (simp [h1, h2, ih]; all_goals omega)

lemma mts_applyRecords_filter (calls : List RecordCall) (tNow : Int)
    (h : ∀ c ∈ calls, c.t ≤ tNow) :
    ∀ stored : Option UsageData,
      (mtsOf (applyRecords calls stored)).filter (fun x => decide (tNow - 60000 < x))
        = (mtsOf stored ++ calls.map (fun c => c.t)).filter
            (fun x => decide (tNow - 60000 < x)) := by
  induction calls with
  | nil => intro s; simp [applyRecords]
  | cons c cs ih =>
    intro s
    have hc : c.t ≤ tNow := h c (List.mem_cons_self c cs)
    have hcs : ∀ x ∈ cs, x.t ≤ tNow := fun x hx => h x (List.mem_cons_of_mem c hx)
    have habs := fun l => filter_window_absorb l c.t tNow hc
    rw [applyRecords, ih hcs]
    by_cases hF : tNow - 60000 < c.t <;>
      simp [recordRequestOp, mtsOf, mts_recordRequest, List.filter_append,
        List.filter_cons, habs, hF]

/-! ## Claims about the quota governor -/

/-- C1: for every persisted quota state and evaluation instant,
`canRequest()` returns Deny with the daily-cap reason whenever the
rolled-over day count is at least 1500, regardless of the minute window;
otherwise Deny with the per-minute reason whenever the pruned minute
window holds at least 15 timestamps; otherwise Admit.  The day check
takes precedence over the minute check. -/
theorem claim1_canRequest_day_precedence (stored : Option UsageData) (tNow tDay : Int) :
    canRequest stored tNow tDay =
      (if MAX_RPD ≤ (getCleanUsage stored tNow tDay).dayCount then
        { allowed := false, reason := some dayExhaustedReason }
      else if MAX_RPM ≤ ((getCleanUsage stored tNow tDay).minuteTimestamps.length : Int) then
        { allowed := false,
          reason := some (minuteExhaustedReason (getQuota stored tNow tDay).rpm.resetInSec) }
      else
        { allowed := true, reason := none }) := by
  have hd := getQuota_rpd_remaining stored tNow tDay
  have hm := getQuota_rpm_remaining stored tNow tDay
  simp only [canRequest]
  split_ifs with h1 h2 h3 h2 h3 <;>
    first
      | rfl
      | (exfalso; rw [hd] at h1; rw [hm] at *; simp [max_le_iff] at *; omega)

/-- C4: for every sequence of `recordRequest()` calls starting from a fresh
blob, and every evaluation instant not earlier than the calls, the
`rpm.used` field of `getQuota()` equals the number of calls whose
timestamp lies within the trailing 60 seconds of the evaluation
instant. -/
theorem claim4_minuteUsed_counts_trailing_window (calls : List RecordCall) (tNow tDay : Int)
    (h : ∀ c ∈ calls, c.t ≤ tNow) :
    (getQuota (applyRecords calls none) tNow tDay).rpm.used
      = (((calls.map (fun c => c.t)).filter (fun x => decide (tNow - 60000 < x))).length : Int) := by
  rw [getQuota_rpm_used, mts_getCleanUsage, mts_applyRecords_filter calls tNow h none]
  simp [mtsOf]

/-- Witness for C4 at a concrete call sequence: calls at 0 ms, 50000 ms and
100000 ms evaluated at 110000 ms leave exactly one call inside the
trailing minute. -/
theorem claim4_witness :
    (getQuota (applyRecords [⟨0, 0⟩, ⟨50000, 0⟩, ⟨100000, 0⟩] none) 110000 0).rpm.used = 1 :=
  (claim4_minuteUsed_counts_trailing_window [⟨0, 0⟩, ⟨50000, 0⟩, ⟨100000, 0⟩] 110000 0
    (by decide)).trans (by decide)

/-- C8 counterexample: a persisted blob holding the stale timestamp 0 is
unchanged by `getQuota()` at instant 1000000, so after the call the blob
still contains a timestamp older than 60 seconds — `getQuota()` does not
persist the pruned state. -/
theorem claim8_counterexample :
    (getQuotaOp (some { minuteTimestamps := [0], dayStart := 0, dayCount := 1 }) 1000000 0).2
        = some { minuteTimestamps := [0], dayStart := 0, dayCount := 1 }
      ∧ ¬ (∀ t ∈ mtsOf (getQuotaOp
            (some { minuteTimestamps := [0], dayStart := 0, dayCount := 1 }) 1000000 0).2,
              1000000 - 60000 < t) := by
  constructor
  · rfl
  · decide

/-- C8 amended: `getQuota()` prunes the minute window and rolls the day
counter over only in its in-memory snapshot; it performs no write, so the
persisted blob is unchanged by the call.  Only `recordRequest()` writes
the blob back (pruned, with the fresh timestamp appended). -/
theorem claim8_getQuota_reads_only (stored : Option UsageData) (tNow tDay : Int) :
    (getQuotaOp stored tNow tDay).2 = stored
      ∧ (getQuotaOp stored tNow tDay).1.rpm.used
          = (((mtsOf stored).filter (fun x => decide (tNow - 60000 < x))).length : Int)
      ∧ (getQuotaOp stored tNow tDay).1.rpd.used = (getCleanUsage stored tNow tDay).dayCount
      ∧ recordRequestOp stored tNow tDay = some (recordRequest stored tNow tDay) := by
  refine ⟨rfl, ?_, rfl, rfl⟩
  simp [getQuotaOp, getQuota_rpm_used, mts_getCleanUsage]

/-- C10: the reported remaining quotas are clamped at zero for every state
and instant, while the used counts are not capped: a sequence of 16
`recordRequest()` calls inside one minute yields `rpm.used = 16`, above
the 15-per-minute maximum, with `rpm.remaining = 0`; `recordRequest()`
appends unconditionally even when the window is already full; and a
clarification round started at 14 used requests records twice without a
fresh admission check, ending at 16 timestamps in the window. -/
theorem claim10_remaining_clamped_used_uncapped :
    (∀ (stored : Option UsageData) (tNow tDay : Int),
        0 ≤ (getQuota stored tNow tDay).rpm.remaining
          ∧ 0 ≤ (getQuota stored tNow tDay).rpd.remaining)
      ∧ (getQuota (applyRecords (List.replicate 16 ⟨0, 0⟩) none) 0 0).rpm.used = 16
      ∧ (getQuota (applyRecords (List.replicate 16 ⟨0, 0⟩) none) 0 0).rpm.remaining = 0
      ∧ (recordRequest
            (some { minuteTimestamps := List.replicate 15 0, dayStart := 0, dayCount := 1500 })
            0 0).minuteTimestamps.length = 16
      ∧ ((beginRecordingModel
              { keyLocal := some "k", builtInKey := "",
                storedQuota := some { minuteTimestamps := List.replicate 14 0, dayStart := 0,
                                      dayCount := 100 },
                fetchFirst := fun _ => { status := 200, content := some "c",
                                         contentValue := some clarifyTwoOptions },
                fetchClarified := fun _ => { status := 200, content := some "c",
                                             contentValue := some translateB },
                clicks := [1] }
              0 0 (.ok "hi")).storedAfter.getD
            { minuteTimestamps := [], dayStart := 0, dayCount := 0 }).minuteTimestamps.length
          = 16 := by
  refine ⟨fun stored tNow tDay => ?_, by decide, by decide, by decide, by decide⟩
  rw [getQuota_rpm_remaining, getQuota_rpd_remaining]
  exact ⟨le_max_left 0 _, le_max_left 0 _⟩

/-! ## Claims about the backend client -/

/-- C3: when the backend answers 429 on attempts 1 and 2 and 200 on
attempt 3, `fetchWithRetry` returns the third attempt's response after
exactly the two backoff delays 2000 ms and 4000 ms and issues no fourth
attempt; and when every attempt is rate-limited, at most 3 retries happen
with delays 2000, 4000 and 8000 ms, after which `analyzeAndTranslate`
surfaces the final 429 as a rate-limit error. -/
theorem claim3_fetchWithRetry_backoff (f : Nat → FetchResponse) :
    ((f 0).status = 429 → (f 1).status = 429 → (f 2).status = 200 →
      fetchWithRetry f 3
        = { response := f 2, delays := [2000, 4000], attemptsMade := [0, 1, 2] })
      ∧ ((∀ i, i ≤ 3 → (f i).status = 429) →
          fetchWithRetry f 3
              = { response := f 3, delays := [2000, 4000, 8000], attemptsMade := [0, 1, 2, 3] }
            ∧ ∀ (keyLocal : Option String) (builtInKey : String),
                getApiKey keyLocal builtInKey ≠ "" →
                  (analyzeAndTranslate keyLocal builtInKey f).result
                    = .error (.rateLimited (errorDetail (f 3)))) := by
  constructor
  · intro h0 h1 h2
    simp [fetchWithRetry, fetchWithRetryGo, h0, h1, h2]
  · intro hall
    have h0 := hall 0 (by omega)
    have h1 := hall 1 (by omega)
    have h2 := hall 2 (by omega)
    have h3 := hall 3 (by omega)
    have hrun : fetchWithRetry f 3
        = { response := f 3, delays := [2000, 4000, 8000], attemptsMade := [0, 1, 2, 3] } := by
      simp [fetchWithRetry, fetchWithRetryGo, h0, h1, h2, h3]
    refine ⟨hrun, fun keyLocal builtInKey hkey => ?_⟩
    simp [analyzeAndTranslate, hkey, hrun, respOk, h3, getApiKey] at *
    simp [analyzeAndTranslate, hrun, respOk, h3, if_neg hkey]

/-- Witness for C3: both conjuncts applied to concrete oracles. -/
theorem claim3_witness :
    fetchWithRetry
        (fun i => if i = 2 then { status := 200 } else { status := 429 }) 3
      = { response := { status := 200 }, delays := [2000, 4000], attemptsMade := [0, 1, 2] }
      ∧ (analyzeAndTranslate (some "k") ""
            (fun _ => { status := 429, bodyText := "slow down" })).result
          = .error (.rateLimited "slow down") := by
  constructor
  · exact (claim3_fetchWithRetry_backoff
      (fun i => if i = 2 then { status := 200 } else { status := 429 })).1 rfl rfl rfl
  · have h := ((claim3_fetchWithRetry_backoff
      (fun _ => { status := 429, bodyText := "slow down" })).2
        (fun i _ => rfl)).2 (some "k") "" (by decide)
    exact h.trans (by decide)

/-- C7: a 2xx clarified-translation response whose content does not parse
as JSON still yields a translate-shaped result carrying the raw content
text, or the original clarified text when the content is absent or empty,
instead of an error. -/
theorem claim7_clarified_parse_fallback (keyLocal : Option String) (builtInKey : String)
    (clarifiedText : String) (f : Nat → FetchResponse)
    (hkey : getApiKey keyLocal builtInKey ≠ "")
    (hok : respOk (fetchWithRetry f 3).response = true)
    (hparse : (fetchWithRetry f 3).response.contentValue = none) :
    (translateClarified keyLocal builtInKey clarifiedText f).result
      = .ok { type := some "translate", original := some clarifiedText,
              translated := some (jsOr (fetchWithRetry f 3).response.content clarifiedText) } := by
  simp [translateClarified, hkey, hok, hparse, if_neg hkey]

/-- Witness for C7: a 200 response whose body text "RAW" is not JSON is
returned as the translation. -/
theorem claim7_witness :
    (translateClarified (some "k") "" "move the pallet"
        (fun _ => { status := 200, content := some "RAW" })).result
      = .ok { type := some "translate", original := some "move the pallet",
              translated := some "RAW" } := by
  have h := claim7_clarified_parse_fallback (some "k") "" "move the pallet"
    (fun _ => { status := 200, content := some "RAW" }) (by decide) (by decide) (by decide)
  exact h.trans (by decide)

/-! ## Lemmas about the round orchestration -/

lemma translationFlow_error (env : RoundEnv) (tNow tDay : Int) (e : GeminiError)
    (h : (analyzeAndTranslate env.keyLocal env.builtInKey env.fetchFirst).result = .error e) :
    translationFlow env tNow tDay
      = { outcome := .failed e, storedAfter := env.storedQuota, recordCalls := 0,
          networkCalls := (analyzeAndTranslate env.keyLocal env.builtInKey
            env.fetchFirst).networkCalls,
          clarifyPrompts := 0, clarifiedCallInput := none } := by
  simp [translationFlow, h]

lemma translationFlow_translate (env : RoundEnv) (tNow tDay : Int) (v : GeminiValue)
    (h : (analyzeAndTranslate env.keyLocal env.builtInKey env.fetchFirst).result = .ok v)
    (hnc : v.type ≠ some "clarify") :
    translationFlow env tNow tDay
      = { outcome := .done v, storedAfter := recordRequestOp env.storedQuota tNow tDay,
          recordCalls := 1,
          networkCalls := (analyzeAndTranslate env.keyLocal env.builtInKey
            env.fetchFirst).networkCalls,
          clarifyPrompts := 0, clarifiedCallInput := none } := by
  simp [translationFlow, h, hnc]

lemma translationFlow_clarify_suspended (env : RoundEnv) (tNow tDay : Int) (v : GeminiValue)
    (h : (analyzeAndTranslate env.keyLocal env.builtInKey env.fetchFirst).result = .ok v)
    (hc : v.type = some "clarify")
    (hb : addClarifyBubbleModel v env.clicks = none) :
    translationFlow env tNow tDay
      = { outcome := .suspended, storedAfter := recordRequestOp env.storedQuota tNow tDay,
          recordCalls := 1,
          networkCalls := (analyzeAndTranslate env.keyLocal env.builtInKey
            env.fetchFirst).networkCalls,
          clarifyPrompts := 1, clarifiedCallInput := none } := by
  simp [translationFlow, h, hc, hb]

lemma translationFlow_clarify_error (env : RoundEnv) (tNow tDay : Int) (v : GeminiValue)
    (sel : String) (e : GeminiError)
    (h : (analyzeAndTranslate env.keyLocal env.builtInKey env.fetchFirst).result = .ok v)
    (hc : v.type = some "clarify")
    (hb : addClarifyBubbleModel v env.clicks = some sel)
    (h2 : (translateClarified env.keyLocal env.builtInKey sel env.fetchClarified).result
      = .error e) :
    translationFlow env tNow tDay
      = { outcome := .failed e, storedAfter := recordRequestOp env.storedQuota tNow tDay,
          recordCalls := 1,
          networkCalls := (analyzeAndTranslate env.keyLocal env.builtInKey
              env.fetchFirst).networkCalls
            + (translateClarified env.keyLocal env.builtInKey sel
              env.fetchClarified).networkCalls,
          clarifyPrompts := 1, clarifiedCallInput := some sel } := by
  simp [translationFlow, h, hc, hb, h2]

lemma translationFlow_clarify_done (env : RoundEnv) (tNow tDay : Int) (v : GeminiValue)
    (sel : String) (w : GeminiValue)
    (h : (analyzeAndTranslate env.keyLocal env.builtInKey env.fetchFirst).result = .ok v)
    (hc : v.type = some "clarify")
    (hb : addClarifyBubbleModel v env.clicks = some sel)
    (h2 : (translateClarified env.keyLocal env.builtInKey sel env.fetchClarified).result
      = .ok w) :
    translationFlow env tNow tDay
      = { outcome := .done w,
          storedAfter := recordRequestOp (recordRequestOp env.storedQuota tNow tDay) tNow tDay,
          recordCalls := 2,
          networkCalls := (analyzeAndTranslate env.keyLocal env.builtInKey
              env.fetchFirst).networkCalls
            + (translateClarified env.keyLocal env.builtInKey sel
              env.fetchClarified).networkCalls,
          clarifyPrompts := 1, clarifiedCallInput := some sel } := by
  simp [translationFlow, h, hc, hb, h2]

lemma beginRecording_denied (env : RoundEnv) (tNow tDay : Int) (speech : Except String String)
    (h : (canRequest env.storedQuota tNow tDay).allowed = false) :
    beginRecordingModel env tNow tDay speech
      = { outcome := .denied (canRequest env.storedQuota tNow tDay).reason,
          storedAfter := env.storedQuota, recordCalls := 0, networkCalls := 0,
          clarifyPrompts := 0, clarifiedCallInput := none } := by
  simp [beginRecordingModel, h]

lemma beginRecording_capture (env : RoundEnv) (tNow tDay : Int) (msg : String)
    (h : (canRequest env.storedQuota tNow tDay).allowed = true) :
    beginRecordingModel env tNow tDay (.error msg)
      = { outcome := .captureFailed msg, storedAfter := env.storedQuota, recordCalls := 0,
          networkCalls := 0, clarifyPrompts := 0, clarifiedCallInput := none } := by
  simp [beginRecordingModel, h]

lemma beginRecording_empty (env : RoundEnv) (tNow tDay : Int)
    (h : (canRequest env.storedQuota tNow tDay).allowed = true) :
    beginRecordingModel env tNow tDay (.ok "")
      = { outcome := .noSpeech, storedAfter := env.storedQuota, recordCalls := 0,
          networkCalls := 0, clarifyPrompts := 0, clarifiedCallInput := none } := by
  simp [beginRecordingModel, h]

lemma beginRecording_flow (env : RoundEnv) (tNow tDay : Int) (t : String)
    (h : (canRequest env.storedQuota tNow tDay).allowed = true) (ht : t ≠ "") :
    beginRecordingModel env tNow tDay (.ok t) = translationFlow env tNow tDay := by
  simp [beginRecordingModel, h, ht]

lemma translateText_denied (env : RoundEnv) (tNow tDay : Int) (text : String)
    (h : (canRequest env.storedQuota tNow tDay).allowed = false) :
    translateTextModel env tNow tDay text
      = { outcome := .denied (canRequest env.storedQuota tNow tDay).reason,
          storedAfter := env.storedQuota, recordCalls := 0, networkCalls := 0,
          clarifyPrompts := 0, clarifiedCallInput := none } := by
  simp [translateTextModel, h]

lemma translateText_flow (env : RoundEnv) (tNow tDay : Int) (text : String)
    (h : (canRequest env.storedQuota tNow tDay).allowed = true) :
    translateTextModel env tNow tDay text = translationFlow env tNow tDay := by
  simp [translateTextModel, h]

lemma allowed_false_of_not_true (c : CheckResult) (h : ¬ c.allowed = true) :
    c.allowed = false := by
  revert h; cases c.allowed <;> simp

lemma translationFlow_clarifyPrompts_le (env : RoundEnv) (tNow tDay : Int) :
    (translationFlow env tNow tDay).clarifyPrompts ≤ 1 := by
  rcases hres : (analyzeAndTranslate env.keyLocal env.builtInKey env.fetchFirst).result
    with e | v
  · rw [translationFlow_error env tNow tDay e hres]; exact Nat.zero_le 1
  · by_cases hc : v.type = some "clarify"
    · rcases hb : addClarifyBubbleModel v env.clicks with _ | sel
      · rw [translationFlow_clarify_suspended env tNow tDay v hres hc hb]
      · rcases h2 : (translateClarified env.keyLocal env.builtInKey sel
            env.fetchClarified).result with e2 | w
        · rw [translationFlow_clarify_error env tNow tDay v sel e2 hres hc hb h2]
        · rw [translationFlow_clarify_done env tNow tDay v sel w hres hc hb h2]
    · rw [translationFlow_translate env tNow tDay v hres hc]; exact Nat.zero_le 1

lemma beginRecording_clarifyPrompts_le (env : RoundEnv) (tNow tDay : Int)
    (speech : Except String String) :
    (beginRecordingModel env tNow tDay speech).clarifyPrompts ≤ 1 := by
  by_cases hal : (canRequest env.storedQuota tNow tDay).allowed = true
  · cases speech with
    | error msg => rw [beginRecording_capture env tNow tDay msg hal]; exact Nat.zero_le 1
    | ok t =>
      by_cases ht : t = ""
      · subst ht; rw [beginRecording_empty env tNow tDay hal]; exact Nat.zero_le 1
      · rw [beginRecording_flow env tNow tDay t hal ht]
        exact translationFlow_clarifyPrompts_le env tNow tDay
  · rw [beginRecording_denied env tNow tDay speech
      (allowed_false_of_not_true _ hal)]
    exact Nat.zero_le 1

lemma translationFlow_clicks_congr (keyLocal : Option String) (builtInKey : String)
    (stored : Option UsageData) (f1 f2 : Nat → FetchResponse) (c1 c2 : List Nat)
    (tNow tDay : Int)
    (h : ∀ v, (analyzeAndTranslate keyLocal builtInKey f1).result = .ok v →
          addClarifyBubbleModel v c1 = addClarifyBubbleModel v c2) :
    translationFlow ⟨keyLocal, builtInKey, stored, f1, f2, c1⟩ tNow tDay
      = translationFlow ⟨keyLocal, builtInKey, stored, f1, f2, c2⟩ tNow tDay := by
  rcases hres : (analyzeAndTranslate keyLocal builtInKey f1).result with e | v
  · rw [translationFlow_error _ tNow tDay e hres, translationFlow_error _ tNow tDay e hres]
  · by_cases hc : v.type = some "clarify"
    · have hb := h v hres
      rcases hb1 : addClarifyBubbleModel v c1 with _ | sel
      · have hb2 : addClarifyBubbleModel v c2 = none := by rw [← hb]; exact hb1
        rw [translationFlow_clarify_suspended _ tNow tDay v hres hc hb1,
          translationFlow_clarify_suspended _ tNow tDay v hres hc hb2]
      · have hb2 : addClarifyBubbleModel v c2 = some sel := by rw [← hb]; exact hb1
        rcases h2 : (translateClarified keyLocal builtInKey sel f2).result with e2 | w
        · rw [translationFlow_clarify_error _ tNow tDay v sel e2 hres hc hb1 h2,
            translationFlow_clarify_error _ tNow tDay v sel e2 hres hc hb2 h2]
        · rw [translationFlow_clarify_done _ tNow tDay v sel w hres hc hb1 h2,
            translationFlow_clarify_done _ tNow tDay v sel w hres hc hb2 h2]
    · rw [translationFlow_translate _ tNow tDay v hres hc,
        translationFlow_translate _ tNow tDay v hres hc]

/-! ## Claims about the round orchestration -/

/-- C2 counterexample: a round whose backend call reaches the network and
fails (HTTP 500 on the single attempt) performs one network call but zero
`recordRequest()` invocations, so a network-reaching failure does not
consume quota as the claim states. -/
theorem claim2_counterexample :
    (beginRecordingModel
        { keyLocal := some "k", builtInKey := "", storedQuota := none,
          fetchFirst := fun _ => { status := 500, bodyText := "boom" },
          fetchClarified := fun _ => { status := 200 }, clicks := [] }
        0 0 (.ok "hello")).networkCalls = 1
    ∧ (beginRecordingModel
        { keyLocal := some "k", builtInKey := "", storedQuota := none,
          fetchFirst := fun _ => { status := 500, bodyText := "boom" },
          fetchClarified := fun _ => { status := 200 }, clicks := [] }
        0 0 (.ok "hello")).recordCalls = 0 := by
  exact ⟨by decide, by decide⟩

/-- C2 amended: `recordRequest()` runs only after a backend call that
returns successfully — once after the initial call when it yields a
parsed value, and once more after the clarified call when it returns.
Backend-reported failures (non-2xx, including 429 after retries) consume
no quota, and pre-flight denials and empty-speech aborts consume none;
the typed-text round behaves exactly like the voice round on nonempty
text. -/
theorem claim2_quota_recorded_only_on_success (env : RoundEnv) (tNow tDay : Int)
    (speech : Except String String) :
    ((canRequest env.storedQuota tNow tDay).allowed = false →
        beginRecordingModel env tNow tDay speech
          = { outcome := .denied (canRequest env.storedQuota tNow tDay).reason,
              storedAfter := env.storedQuota, recordCalls := 0, networkCalls := 0,
              clarifyPrompts := 0, clarifiedCallInput := none })
    ∧ ((canRequest env.storedQuota tNow tDay).allowed = true →
        beginRecordingModel env tNow tDay (.ok "")
          = { outcome := .noSpeech, storedAfter := env.storedQuota, recordCalls := 0,
              networkCalls := 0, clarifyPrompts := 0, clarifiedCallInput := none })
    ∧ (∀ e, (analyzeAndTranslate env.keyLocal env.builtInKey env.fetchFirst).result = .error e →
        (beginRecordingModel env tNow tDay speech).recordCalls = 0
          ∧ (beginRecordingModel env tNow tDay speech).storedAfter = env.storedQuota)
    ∧ (∀ v t, (analyzeAndTranslate env.keyLocal env.builtInKey env.fetchFirst).result = .ok v →
        (canRequest env.storedQuota tNow tDay).allowed = true →
        speech = .ok t → t ≠ "" →
        ((v.type ≠ some "clarify" →
            (beginRecordingModel env tNow tDay speech).recordCalls = 1
              ∧ (beginRecordingModel env tNow tDay speech).storedAfter
                  = recordRequestOp env.storedQuota tNow tDay)
          ∧ (v.type = some "clarify" →
              (addClarifyBubbleModel v env.clicks = none →
                  (beginRecordingModel env tNow tDay speech).recordCalls = 1)
                ∧ ∀ sel, addClarifyBubbleModel v env.clicks = some sel →
                    ((∀ e2, (translateClarified env.keyLocal env.builtInKey sel
                          env.fetchClarified).result = .error e2 →
                        (beginRecordingModel env tNow tDay speech).recordCalls = 1)
                      ∧ ∀ w, (translateClarified env.keyLocal env.builtInKey sel
                            env.fetchClarified).result = .ok w →
                          (beginRecordingModel env tNow tDay speech).recordCalls = 2))))
    ∧ (∀ text, text ≠ "" →
        translateTextModel env tNow tDay text = beginRecordingModel env tNow tDay (.ok text)) := by
  refine ⟨fun hden => beginRecording_denied env tNow tDay speech hden,
    fun hal => beginRecording_empty env tNow tDay hal,
    fun e he => ?_, fun v t hv hal hsp ht => ?_, fun text htext => ?_⟩
  · by_cases hal : (canRequest env.storedQuota tNow tDay).allowed = true
    · cases speech with
      | error msg =>
        rw [beginRecording_capture env tNow tDay msg hal]; exact ⟨rfl, rfl⟩
      | ok t =>
        by_cases ht : t = ""
        · subst ht; rw [beginRecording_empty env tNow tDay hal]; exact ⟨rfl, rfl⟩
        · rw [beginRecording_flow env tNow tDay t hal ht,
            translationFlow_error env tNow tDay e he]
          exact ⟨rfl, rfl⟩
    · rw [beginRecording_denied env tNow tDay speech (allowed_false_of_not_true _ hal)]
      exact ⟨rfl, rfl⟩
  · subst hsp
    rw [beginRecording_flow env tNow tDay t hal ht]
    refine ⟨fun hnc => ?_, fun hc => ⟨fun hbn => ?_, fun sel hbs => ⟨fun e2 h2 => ?_,
      fun w h2 => ?_⟩⟩⟩
    · rw [translationFlow_translate env tNow tDay v hv hnc]; exact ⟨rfl, rfl⟩
    · rw [translationFlow_clarify_suspended env tNow tDay v hv hc hbn]
    · rw [translationFlow_clarify_error env tNow tDay v sel e2 hv hc hbs h2]
    · rw [translationFlow_clarify_done env tNow tDay v sel w hv hc hbs h2]
  · by_cases hal : (canRequest env.storedQuota tNow tDay).allowed = true
    · rw [translateText_flow env tNow tDay text hal,
        beginRecording_flow env tNow tDay text hal htext]
    · rw [translateText_denied env tNow tDay text (allowed_false_of_not_true _ hal),
        beginRecording_denied env tNow tDay _ (allowed_false_of_not_true _ hal)]

/-- Witness for C2: the amended theorem applied to the HTTP-500 round of
the counterexample environment shows zero quota consumption. -/
theorem claim2_witness :
    (beginRecordingModel
        { keyLocal := some "k", builtInKey := "", storedQuota := none,
          fetchFirst := fun _ => { status := 500, bodyText := "boom" },
          fetchClarified := fun _ => { status := 200 }, clicks := [] }
        0 0 (.ok "hello")).recordCalls = 0
    ∧ (beginRecordingModel
        { keyLocal := some "k", builtInKey := "", storedQuota := none,
          fetchFirst := fun _ => { status := 500, bodyText := "boom" },
          fetchClarified := fun _ => { status := 200 }, clicks := [] }
        0 0 (.ok "hello")).storedAfter = none :=
  (claim2_quota_recorded_only_on_success
      { keyLocal := some "k", builtInKey := "", storedQuota := none,
        fetchFirst := fun _ => { status := 500, bodyText := "boom" },
        fetchClarified := fun _ => { status := 200 }, clicks := [] }
      0 0 (.ok "hello")).2.2.1 (.apiError 500 "boom") (by decide)

/-- C5: when the resolved credential is empty, both backend entry points
throw the configuration error with zero network requests, and a whole
round in that configuration records no quota, performs no network call,
and leaves the persisted quota blob exactly as it was. -/
theorem claim5_missing_credential_short_circuits (keyLocal : Option String)
    (builtInKey : String) (hkey : getApiKey keyLocal builtInKey = "") :
    (∀ f, analyzeAndTranslate keyLocal builtInKey f
        = { result := .error .missingKey, networkCalls := 0 })
    ∧ (∀ text f, translateClarified keyLocal builtInKey text f
        = { result := .error .missingKey, networkCalls := 0 })
    ∧ ∀ (stored : Option UsageData) (f1 f2 : Nat → FetchResponse) (clicks : List Nat)
        (tNow tDay : Int) (speech : Except String String),
        (beginRecordingModel ⟨keyLocal, builtInKey, stored, f1, f2, clicks⟩ tNow tDay
            speech).recordCalls = 0
        ∧ (beginRecordingModel ⟨keyLocal, builtInKey, stored, f1, f2, clicks⟩ tNow tDay
            speech).networkCalls = 0
        ∧ (beginRecordingModel ⟨keyLocal, builtInKey, stored, f1, f2, clicks⟩ tNow tDay
            speech).storedAfter = stored := by
  have ha : ∀ f, analyzeAndTranslate keyLocal builtInKey f
      = { result := .error .missingKey, networkCalls := 0 } := fun f => by
    simp [analyzeAndTranslate, hkey]
  have htc : ∀ text f, translateClarified keyLocal builtInKey text f
      = { result := .error .missingKey, networkCalls := 0 } := fun text f => by
    simp [translateClarified, hkey]
  refine ⟨ha, htc, fun stored f1 f2 clicks tNow tDay speech => ?_⟩
  by_cases hal : (canRequest stored tNow tDay).allowed = true
  · cases speech with
    | error msg =>
      rw [beginRecording_capture ⟨keyLocal, builtInKey, stored, f1, f2, clicks⟩ tNow tDay msg hal]
      exact ⟨rfl, rfl, rfl⟩
    | ok t =>
      by_cases ht : t = ""
      · subst ht
        rw [beginRecording_empty ⟨keyLocal, builtInKey, stored, f1, f2, clicks⟩ tNow tDay hal]
        exact ⟨rfl, rfl, rfl⟩
      · have hres : (analyzeAndTranslate keyLocal builtInKey f1).result
            = .error .missingKey := by rw [ha f1]
        rw [beginRecording_flow ⟨keyLocal, builtInKey, stored, f1, f2, clicks⟩ tNow tDay t hal ht,
          translationFlow_error ⟨keyLocal, builtInKey, stored, f1, f2, clicks⟩ tNow tDay
            .missingKey hres]
        refine ⟨rfl, ?_, rfl⟩
        show (analyzeAndTranslate keyLocal builtInKey f1).networkCalls = 0
        rw [ha f1]
  · rw [beginRecording_denied ⟨keyLocal, builtInKey, stored, f1, f2, clicks⟩ tNow tDay speech
      (allowed_false_of_not_true _ hal)]
    exact ⟨rfl, rfl, rfl⟩

/-- Witness for C5: with no override and an empty build-time key the
backend call fails as a configuration error without touching the network,
and a full round leaves the persisted quota blob unchanged. -/
theorem claim5_witness :
    analyzeAndTranslate none "" (fun _ => { status := 200 })
        = { result := .error .missingKey, networkCalls := 0 }
    ∧ translateClarified none "" "B" (fun _ => { status := 200 })
        = { result := .error .missingKey, networkCalls := 0 }
    ∧ (beginRecordingModel ⟨none, "", some ⟨[5], 0, 3⟩, (fun _ => { status := 200 }),
          (fun _ => { status := 200 }), []⟩ 10 0 (.ok "hi")).storedAfter
        = some ⟨[5], 0, 3⟩ := by
  have h := claim5_missing_credential_short_circuits none "" rfl
  exact ⟨h.1 _, h.2.1 "B" _, (h.2.2 (some ⟨[5], 0, 3⟩) _ _ [] 10 0 (.ok "hi")).2.2⟩

/-- C6 counterexample: when the clarified-translation response is a 2xx
whose body parses to a clarify-shaped value, `translateClarified` returns
that clarify-shaped value unchanged — not a Translated-variant result —
because the source performs no shape validation on the parsed JSON. -/
theorem claim6_counterexample :
    (translateClarified (some "k") "" "B"
        (fun _ => { status := 200, content := some "x",
                    contentValue := some clarifyTwoOptions })).result
      = .ok clarifyTwoOptions
    ∧ clarifyTwoOptions.type = some "clarify"
    ∧ clarifyTwoOptions.type ≠ some "translate" :=
  ⟨by decide, by decide, by decide⟩

/-- C6 amended: `translateClarified` returns whatever JSON the backend
supplies — a parsed 2xx value is passed through unvalidated, clarify
shape included; only the parse-failure fallback is forced into the
Translated shape — and the orchestrated round never starts a second
disambiguation: at most one clarification prompt is shown per round, the
clarified call's result being delivered directly as the final
translation. -/
theorem claim6_clarified_no_second_disambiguation (keyLocal : Option String)
    (builtInKey text : String) (f : Nat → FetchResponse)
    (hkey : getApiKey keyLocal builtInKey ≠ "")
    (hok : respOk (fetchWithRetry f 3).response = true) :
    (∀ v, (fetchWithRetry f 3).response.contentValue = some v →
        (translateClarified keyLocal builtInKey text f).result = .ok v)
    ∧ ((fetchWithRetry f 3).response.contentValue = none →
        (translateClarified keyLocal builtInKey text f).result
          = .ok { type := some "translate", original := some text,
                  translated := some (jsOr (fetchWithRetry f 3).response.content text) })
    ∧ ∀ (env : RoundEnv) (tNow tDay : Int) (speech : Except String String),
        (beginRecordingModel env tNow tDay speech).clarifyPrompts ≤ 1 := by
  refine ⟨fun v hv => ?_, fun hn => ?_,
    fun env tNow tDay speech => beginRecording_clarifyPrompts_le env tNow tDay speech⟩
  · simp [translateClarified, if_neg hkey, hok, hv]
  · simp [translateClarified, if_neg hkey, hok, hn]

/-- Witness for C6: a parsed translate-shaped 2xx response is passed
through, and a concrete clarification round shows exactly one prompt. -/
theorem claim6_witness :
    (translateClarified (some "k") "" "B"
        (fun _ => { status := 200, content := some "x",
                    contentValue := some translateB })).result = .ok translateB
    ∧ (beginRecordingModel
        { keyLocal := some "k", builtInKey := "", storedQuota := none,
          fetchFirst := fun _ => { status := 200, content := some "c",
                                   contentValue := some clarifyTwoOptions },
          fetchClarified := fun _ => { status := 200, content := some "c",
                                       contentValue := some translateB },
          clicks := [1] }
        0 0 (.ok "hi")).clarifyPrompts ≤ 1 := by
  have h := claim6_clarified_no_second_disambiguation (some "k") "" "B"
    (fun _ => { status := 200, content := some "x", contentValue := some translateB })
    (by decide) (by decide)
  exact ⟨h.1 translateB (by decide), h.2.2 _ 0 0 (.ok "hi")⟩

/-- C9: the clarify bubble resolves with the first clicked option's value
and ignores every later click — the whole round trace with clicks
`i :: rest` equals the trace with the single click `i` — and a round
reaching the clarification performs its clarified call with exactly the
chosen option's value, showing exactly one prompt. -/
theorem claim9_single_selection (keyLocal : Option String) (builtInKey : String)
    (f1 : Nat → FetchResponse) (v : GeminiValue) (i : Nat) (o : ClarifyOption)
    (rest : List Nat)
    (h1 : (analyzeAndTranslate keyLocal builtInKey f1).result = .ok v)
    (h2 : v.type = some "clarify")
    (h3 : (v.options.getD [])[i]? = some o) :
    addClarifyBubbleModel v (i :: rest) = some o.value
    ∧ (∀ (stored : Option UsageData) (f2 : Nat → FetchResponse) (tNow tDay : Int)
          (speech : Except String String),
        beginRecordingModel ⟨keyLocal, builtInKey, stored, f1, f2, i :: rest⟩ tNow tDay speech
          = beginRecordingModel ⟨keyLocal, builtInKey, stored, f1, f2, [i]⟩ tNow tDay speech)
    ∧ ∀ (stored : Option UsageData) (f2 : Nat → FetchResponse) (tNow tDay : Int) (t : String),
        (canRequest stored tNow tDay).allowed = true → t ≠ "" →
        (beginRecordingModel ⟨keyLocal, builtInKey, stored, f1, f2, i :: rest⟩ tNow tDay
            (.ok t)).clarifiedCallInput = some o.value
        ∧ (beginRecordingModel ⟨keyLocal, builtInKey, stored, f1, f2, i :: rest⟩ tNow tDay
            (.ok t)).clarifyPrompts = 1 := by
  have hbub : ∀ cl : List Nat, addClarifyBubbleModel v (i :: cl) = some o.value := fun cl => by
    simp [addClarifyBubbleModel, h3]
  refine ⟨hbub rest, fun stored f2 tNow tDay speech => ?_, fun stored f2 tNow tDay t hal ht => ?_⟩
  · by_cases hal : (canRequest stored tNow tDay).allowed = true
    · cases speech with
      | error msg =>
        rw [beginRecording_capture ⟨keyLocal, builtInKey, stored, f1, f2, i :: rest⟩
            tNow tDay msg hal,
          beginRecording_capture ⟨keyLocal, builtInKey, stored, f1, f2, [i]⟩ tNow tDay msg hal]
      | ok t =>
        by_cases ht : t = ""
        · subst ht
          rw [beginRecording_empty ⟨keyLocal, builtInKey, stored, f1, f2, i :: rest⟩
              tNow tDay hal,
            beginRecording_empty ⟨keyLocal, builtInKey, stored, f1, f2, [i]⟩ tNow tDay hal]
        · rw [beginRecording_flow ⟨keyLocal, builtInKey, stored, f1, f2, i :: rest⟩
              tNow tDay t hal ht,
            beginRecording_flow ⟨keyLocal, builtInKey, stored, f1, f2, [i]⟩ tNow tDay t hal ht]
          refine translationFlow_clicks_congr keyLocal builtInKey stored f1 f2
            (i :: rest) [i] tNow tDay (fun v2 hv2 => ?_)
          have hveq : v2 = v := by
            rw [h1] at hv2
            exact (Except.ok.inj hv2).symm
          subst hveq
          rw [hbub rest, hbub []]
    · rw [beginRecording_denied ⟨keyLocal, builtInKey, stored, f1, f2, i :: rest⟩ tNow tDay
          speech (allowed_false_of_not_true _ hal),
        beginRecording_denied ⟨keyLocal, builtInKey, stored, f1, f2, [i]⟩ tNow tDay speech
          (allowed_false_of_not_true _ hal)]
  · rw [beginRecording_flow ⟨keyLocal, builtInKey, stored, f1, f2, i :: rest⟩ tNow tDay t hal ht]
    rcases hres2 : (translateClarified keyLocal builtInKey o.value f2).result with e2 | w
    · rw [translationFlow_clarify_error ⟨keyLocal, builtInKey, stored, f1, f2, i :: rest⟩
        tNow tDay v o.value e2 h1 h2 (hbub rest) hres2]
      exact ⟨rfl, rfl⟩
    · rw [translationFlow_clarify_done ⟨keyLocal, builtInKey, stored, f1, f2, i :: rest⟩
        tNow tDay v o.value w h1 h2 (hbub rest) hres2]
      exact ⟨rfl, rfl⟩

/-- Witness for C9: with the clarify options A and B, clicking B first and
then A resolves to "B", the round trace equals the single-click trace,
and the clarified call's input is "B". -/
theorem claim9_witness :
    addClarifyBubbleModel clarifyTwoOptions [1, 0] = some "B"
    ∧ beginRecordingModel ⟨some "k", "", none,
          (fun _ => { status := 200, content := some "c",
                      contentValue := some clarifyTwoOptions }),
          (fun _ => { status := 200, content := some "c",
                      contentValue := some translateB }), [1, 0]⟩ 0 0 (.ok "hi")
        = beginRecordingModel ⟨some "k", "", none,
            (fun _ => { status := 200, content := some "c",
                        contentValue := some clarifyTwoOptions }),
            (fun _ => { status := 200, content := some "c",
                        contentValue := some translateB }), [1]⟩ 0 0 (.ok "hi")
    ∧ (beginRecordingModel ⟨some "k", "", none,
          (fun _ => { status := 200, content := some "c",
                      contentValue := some clarifyTwoOptions }),
          (fun _ => { status := 200, content := some "c",
                      contentValue := some translateB }), [1, 0]⟩ 0 0
          (.ok "hi")).clarifiedCallInput = some "B" := by
  have h := claim9_single_selection (some "k") ""
    (fun _ => { status := 200, content := some "c", contentValue := some clarifyTwoOptions })
    clarifyTwoOptions 1 { source := "B", target := "B", value := "B" } [0]
    (by decide) (by decide) (by decide)
  refine ⟨h.1, ?_, ?_⟩
  · exact h.2.1 none
      (fun _ => { status := 200, content := some "c", contentValue := some translateB })
      0 0 (.ok "hi")
  · exact (h.2.2 none
      (fun _ => { status := 200, content := some "c", contentValue := some translateB })
      0 0 "hi" (by decide) (by decide)).1

end TwThai
